import Mathlib

/-!
# Tenancy Assignment & Occupancy Consistency — verification of `Functions.js`

A shallow embedding of the apartment / tenant-assignment functions of the
repository's Firebase data layer (`Functions.js`), together with proofs about
the claims of its specification.

Modelling conventions:
* Firestore collections are association lists `List (String × α)` from
  document id to document data; `getDoc` is first-match lookup, `updateDoc`
  rewrites the first document with the given id, `addDoc` appends a document
  under a caller-supplied fresh id.
* JavaScript numbers are `Int`; `Timestamp` values are `Int` (milliseconds).
  A lease date string such as "2024-06-01" is represented by the `Int` its
  `new Date(...)` conversion yields, e.g. 20240601 stands for that timestamp.
* `throw new Error(msg)` is `Except.error msg`; the error message strings are
  the source's.
* Every mutating operation returns an `OpResult`: the `Except` outcome, the
  store after the operation, and the ordered log of writes it issued, so that
  claims about write order and about "no write occurs" can be stated.
-/

set_option autoImplicit false
set_option linter.unusedVariables false

namespace LandlordLink

/-- An `apartments` collection document
(fields per the schema comment and `createApartment` in `Functions.js`). -/
structure Apartment where
  buildingName : String
  unitNumber : String
  floor : Int
  rooms : Int
  status : String
  monthlyRent : Int
  amenities : List String
  maxOccupants : Int
  currentOccupants : Int
  createdAt : Int
  updatedAt : Int
  deriving DecidableEq, Repr

/-- A `tenantApartments` collection document
(fields per `tenantApartmentData` in `assignTenant`). -/
structure TenantApartment where
  userId : String
  apartmentId : String
  status : String
  role : String
  leaseStartDate : Int
  leaseEndDate : Int
  monthlyRent : Int
  createdAt : Int
  updatedAt : Int
  deriving DecidableEq, Repr

/-- A `users` collection document, restricted to the fields the tenancy
functions read or write. -/
structure UserDoc where
  apartmentId : Option String
  updatedAt : Int
  deriving DecidableEq, Repr

/-- The three Firestore collections the tenancy workflow touches. -/
structure Store where
  apartments : List (String × Apartment)
  tenantApartments : List (String × TenantApartment)
  users : List (String × UserDoc)
  deriving DecidableEq, Repr

/-- One write issued against the store: which operation, which collection,
which document id. -/
inductive WriteOp where
  | create (collectionName : String) (id : String)
  | update (collectionName : String) (id : String)
  | delete (collectionName : String) (id : String)
  deriving DecidableEq, Repr

/-- Outcome of a mutating operation: the returned value or thrown error, the
store afterwards, and the ordered list of writes that were issued. -/
structure OpResult (α : Type) where
  result : Except String α
  store : Store
  writes : List WriteOp
  deriving Repr

/-- Firestore `getDoc` on a document reference: first document with the given id. -/
def getDocById {α : Type} (l : List (String × α)) (id : String) : Option α :=
  match l with
  | [] => none
  | (k, v) :: rest => if k == id then some v else getDocById rest id

/-- Firestore `updateDoc` on a document reference: rewrite the first document with the
given id by `f`, leaving the rest unchanged. -/
def updateDocById {α : Type} (l : List (String × α)) (id : String) (f : α → α) :
    List (String × α) :=
  match l with
  | [] => []
  | (k, v) :: rest =>
    if k == id then (k, f v) :: rest else (k, v) :: updateDocById rest id f

/-- The `where('userId','==',userId), where('status','==','active')` query of
`assignTenant`: the user's active tenancy records. -/
def activeTenanciesOfUser (s : Store) (userId : String) :
    List (String × TenantApartment) :=
  s.tenantApartments.filter fun p => p.2.userId == userId && p.2.status == "active"

/-- The `where('apartmentId','==',apartmentId), where('status','==','active')`
query of `getApartmentTenants` and the filter of `deleteApartment`:
the apartment's active tenancy records. -/
def activeTenanciesOfApartment (s : Store) (apartmentId : String) :
    List (String × TenantApartment) :=
  s.tenantApartments.filter fun p =>
    p.2.apartmentId == apartmentId && p.2.status == "active"

/-- Embedding of `assignTenant(userId, apartmentId, leaseData)` from `Functions.js`.

Checks, in source order: apartment exists; `apartment.currentOccupants >= 3`
(a hardcoded literal 3 — the apartment's `maxOccupants` field is never read);
user exists; user has no active tenancy.  There is no validation of the lease
dates anywhere in the function.  On success it issues three writes in order:
`addDoc` of the tenancy record, `updateDoc` of the apartment's occupant count,
`updateDoc` of the user's apartment reference, and returns the created record
with its id.  `now` is the timestamp the source takes as `new Date()`, and
`freshId` the id Firestore assigns to the added document. -/
def assignTenant (s : Store) (userId apartmentId : String)
    (leaseStart leaseEnd : Int) (now : Int) (freshId : String) :
    OpResult (String × TenantApartment) :=
  match getDocById s.apartments apartmentId with
  | none => ⟨Except.error "Apartment not found", s, []⟩
  | some apartment =>
    if apartment.currentOccupants ≥ 3 then
      ⟨Except.error "Apartment is at maximum capacity (3 occupants)", s, []⟩
    else
      match getDocById s.users userId with
      | none => ⟨Except.error "User not found", s, []⟩
      | some _ =>
        if !(activeTenanciesOfUser s userId).isEmpty then
          ⟨Except.error "User already has an active apartment", s, []⟩
        else
          let tenantApartmentData : TenantApartment :=
            { userId := userId
              apartmentId := apartmentId
              status := "active"
              role := "primary"
              leaseStartDate := leaseStart
              leaseEndDate := leaseEnd
              monthlyRent := apartment.monthlyRent
              createdAt := now
              updatedAt := now }
          let s1 : Store :=
            { s with tenantApartments :=
                s.tenantApartments ++ [(freshId, tenantApartmentData)] }
          let bumpOccupants : Apartment → Apartment := fun a =>
            { a with currentOccupants := apartment.currentOccupants + 1, updatedAt := now }
          let setUserApartment : UserDoc → UserDoc := fun u =>
            { u with apartmentId := some apartmentId, updatedAt := now }
          let s2 : Store :=
            { s1 with apartments := updateDocById s1.apartments apartmentId bumpOccupants }
          let s3 : Store :=
            { s2 with users := updateDocById s2.users userId setUserApartment }
          ⟨Except.ok (freshId, tenantApartmentData), s3,
            [WriteOp.create "tenantApartments" freshId,
             WriteOp.update "apartments" apartmentId,
             WriteOp.update "users" userId]⟩

/-- Embedding of `removeTenant(userId, apartmentId)` from `Functions.js`: the source's body
is empty (only numbered to-do comments), so the call returns `undefined`
without throwing and without touching any collection. -/
def removeTenant (s : Store) (userId apartmentId : String) : OpResult Unit :=
  ⟨Except.ok (), s, []⟩

/-- Embedding of `getAvailableApartments()` from `Functions.js`: the query
`where('currentOccupants', '<', 3)` over the `apartments` collection.  The
threshold is the literal 3; no field of the apartment other than
`currentOccupants` is consulted. -/
def getAvailableApartments (s : Store) : List (String × Apartment) :=
  s.apartments.filter fun p => p.2.currentOccupants < 3

/-- The enriched record `getApartmentTenants` is meant to return:
tenancy id, tenancy fields, and the referenced user document (or `null`). -/
structure EnrichedTenant where
  id : String
  data : TenantApartment
  user : Option UserDoc
  deriving DecidableEq, Repr

/-- The per-record enrichment step inside `getApartmentTenants`.  In the
source, the callback passed to `map` names its parameter `doc`, shadowing the
Firestore `doc` function imported at the top of the file; the user lookup
`doc(db, 'users', tenantData.userId)` therefore invokes the document snapshot
as a function and raises a TypeError at run time, so the step never produces
an enriched record. -/
def enrichWithUser (s : Store) (p : String × TenantApartment) :
    Except String EnrichedTenant :=
  Except.error "TypeError: doc is not a function"

/-- Embedding of `getApartmentTenants(apartmentId)` from `Functions.js`: query the active
tenancies of the apartment, then map each through the enrichment step (whose
first failure rejects the whole `Promise.all`, and is rethrown). -/
def getApartmentTenants (s : Store) (apartmentId : String) :
    Except String (List EnrichedTenant) :=
  (activeTenanciesOfApartment s apartmentId).mapM (enrichWithUser s)

/-- Embedding of `deleteApartment(apartmentId)` from `Functions.js`: check the apartment
exists, throw if any `tenantApartments` document references it with status
`active`, otherwise `deleteDoc` it and return the success object. -/
def deleteApartment (s : Store) (apartmentId : String) :
    OpResult (Bool × String) :=
  match getDocById s.apartments apartmentId with
  | none => ⟨Except.error "Apartment not found", s, []⟩
  | some _ =>
    if (activeTenanciesOfApartment s apartmentId).length > 0 then
      ⟨Except.error "Cannot delete apartment with active tenants", s, []⟩
    else
      ⟨Except.ok (true, "Apartment deleted successfully"),
        { s with apartments := s.apartments.filter fun p => !(p.1 == apartmentId) },
        [WriteOp.delete "apartments" apartmentId]⟩

/-- The caller-supplied `apartmentData` of `createApartment`.  The source
spreads the whole object into the new document, so values the caller supplies
for `status` and `currentOccupants` are part of the input; `createApartment`
overwrites both after the spread.  JavaScript truthiness of the required
fields: a string is falsy exactly when empty, a number exactly when 0. -/
structure ApartmentInput where
  buildingName : String
  unitNumber : String
  floor : Int
  rooms : Int
  status : String
  monthlyRent : Int
  amenities : List String
  maxOccupants : Int
  currentOccupants : Int
  deriving DecidableEq, Repr

/-- Embedding of `createApartment(apartmentData)` from `Functions.js`: require
`unitNumber`, `rooms`, `monthlyRent`, `maxOccupants` truthy; require the three
numeric fields positive; reject a duplicate `unitNumber`; then `addDoc` the
spread of the input with `status` forced to `'available'`,
`currentOccupants` forced to 0 and fresh timestamps, returning the new
document with its id. -/
def createApartment (s : Store) (apartmentData : ApartmentInput)
    (now : Int) (freshId : String) : OpResult (String × Apartment) :=
  if apartmentData.unitNumber == "" || apartmentData.rooms == 0 ||
      apartmentData.monthlyRent == 0 || apartmentData.maxOccupants == 0 then
    ⟨Except.error "Missing required fields: unitNumber, rooms, monthlyRent, maxOccupants",
      s, []⟩
  else if apartmentData.rooms ≤ 0 ∨ apartmentData.monthlyRent ≤ 0 ∨
      apartmentData.maxOccupants ≤ 0 then
    ⟨Except.error "Invalid numeric values: rooms, monthlyRent, and maxOccupants must be positive numbers",
      s, []⟩
  else if (s.apartments.find? fun p => p.2.unitNumber == apartmentData.unitNumber).isSome then
    ⟨Except.error "Apartment with this unit number already exists", s, []⟩
  else
    let newApartment : Apartment :=
      { buildingName := apartmentData.buildingName
        unitNumber := apartmentData.unitNumber
        floor := apartmentData.floor
        rooms := apartmentData.rooms
        status := "available"
        monthlyRent := apartmentData.monthlyRent
        amenities := apartmentData.amenities
        maxOccupants := apartmentData.maxOccupants
        currentOccupants := 0
        createdAt := now
        updatedAt := now }
    ⟨Except.ok (freshId, newApartment),
      { s with apartments := s.apartments ++ [(freshId, newApartment)] },
      [WriteOp.create "apartments" freshId]⟩

/-- The caller-supplied `updateData` of `updateApartment`, restricted to the
fields the function inspects (the four validated numeric fields and
`unitNumber`) plus the pass-through fields the claims touch; `none` models an
absent property.  JavaScript truthiness: a present number guards its
validation branch exactly when it is nonzero, a present string exactly when
it is nonempty. -/
structure ApartmentUpdate where
  buildingName : Option String := none
  unitNumber : Option String := none
  floor : Option Int := none
  rooms : Option Int := none
  status : Option String := none
  monthlyRent : Option Int := none
  maxOccupants : Option Int := none
  deriving DecidableEq, Repr

/-- Truthiness guard of `updateData.<numericField> && (...)`:
the validation branch runs only for a present, nonzero value. -/
def truthyNum (o : Option Int) : Bool :=
  match o with
  | none => false
  | some v => v != 0

/-- Truthiness guard of `updateData.unitNumber && (...)` / `if (updateData.unitNumber)`. -/
def truthyStr (o : Option String) : Bool :=
  match o with
  | none => false
  | some v => v != ""

/-- The effect of `updateDoc(apartmentRef, {...updateData, updatedAt})`:
every present field overwrites the stored one, absent fields are untouched,
and `updatedAt` is set. -/
def applyApartmentUpdate (a : Apartment) (u : ApartmentUpdate) (now : Int) :
    Apartment :=
  { a with
    buildingName := u.buildingName.getD a.buildingName
    unitNumber := u.unitNumber.getD a.unitNumber
    floor := u.floor.getD a.floor
    rooms := u.rooms.getD a.rooms
    status := u.status.getD a.status
    monthlyRent := u.monthlyRent.getD a.monthlyRent
    maxOccupants := u.maxOccupants.getD a.maxOccupants
    updatedAt := now }

/-- Embedding of `updateApartment(apartmentId, updateData)` from `Functions.js`: check the
apartment exists; for each of `floor`, `rooms`, `monthlyRent`, `maxOccupants`,
if the supplied value is truthy (present and nonzero) validate that it is a
positive number; if `unitNumber` is truthy reject a duplicate among the other
apartments; then write `{...updateData, updatedAt}` and return
`{ id, ...updatedData }` (the id, the partial update and the new timestamp). -/
def updateApartment (s : Store) (apartmentId : String) (updateData : ApartmentUpdate)
    (now : Int) : OpResult (String × ApartmentUpdate × Int) :=
  match getDocById s.apartments apartmentId with
  | none => ⟨Except.error "Apartment not found", s, []⟩
  | some _ =>
    if truthyNum updateData.floor ∧ updateData.floor.getD 0 ≤ 0 then
      ⟨Except.error "Invalid floor number", s, []⟩
    else if truthyNum updateData.rooms ∧ updateData.rooms.getD 0 ≤ 0 then
      ⟨Except.error "Invalid number of rooms", s, []⟩
    else if truthyNum updateData.monthlyRent ∧ updateData.monthlyRent.getD 0 ≤ 0 then
      ⟨Except.error "Invalid monthly rent", s, []⟩
    else if truthyNum updateData.maxOccupants ∧ updateData.maxOccupants.getD 0 ≤ 0 then
      ⟨Except.error "Invalid maximum occupants", s, []⟩
    else if truthyStr updateData.unitNumber ∧
        ((s.apartments.find? fun p =>
          !(p.1 == apartmentId) && p.2.unitNumber == updateData.unitNumber.getD "").isSome) then
      ⟨Except.error "Apartment with this unit number already exists", s, []⟩
    else
      let newApartments :=
        updateDocById s.apartments apartmentId (applyApartmentUpdate · updateData now)
      ⟨Except.ok (apartmentId, updateData, now),
        { s with apartments := newApartments },
        [WriteOp.update "apartments" apartmentId]⟩

/-! ## Helper lemmas -/

/-- Looking a document up after `updateDoc` on the same id yields the updated
document. -/
theorem getDocById_updateDocById {α : Type} (l : List (String × α)) (id : String)
    (f : α → α) :
    getDocById (updateDocById l id f) id = (getDocById l id).map f := by
  induction l with
  | nil => rfl
  | cons p rest ih =>
    obtain ⟨k, v⟩ := p
    by_cases h : (k == id) = true
    · simp [updateDocById, getDocById, h]
    · simp only [updateDocById, getDocById, h]
      simp only [Bool.false_eq_true, if_false, getDocById, h, ih]

/-- The Boolean condition under which a truthiness-guarded numeric validation
branch of `updateApartment` does not throw: the field is absent, or its value
is nonnegative (zero skips the branch, a positive value passes it). -/
def passesNumValidation (o : Option Int) : Bool :=
  match o with
  | none => true
  | some v => decide (0 ≤ v)

/-- A field that passes `passesNumValidation` never triggers the
corresponding `Invalid ...` throw of `updateApartment`. -/
theorem passesNumValidation_not_invalid (o : Option Int)
    (h : passesNumValidation o = true) :
    ¬(truthyNum o = true ∧ o.getD 0 ≤ 0) := by
  rintro ⟨ht, hle⟩
  cases o with
  | none => simp [truthyNum] at ht
  | some v =>
    simp [passesNumValidation, decide_eq_true_iff] at h
    simp [truthyNum] at ht
    simp [Option.getD] at hle
    omega

/-! ## Fixtures: concrete stores used by witnesses and counterexamples -/

/-- A two-person apartment at its configured capacity
(`currentOccupants = maxOccupants = 2`). -/
def aptAtOwnMax : Apartment :=
  { buildingName := "Main", unitNumber := "101", floor := 1, rooms := 2,
    status := "occupied", monthlyRent := 1200, amenities := [],
    maxOccupants := 2, currentOccupants := 2, createdAt := 0, updatedAt := 0 }

/-- A five-person apartment with room left under its configured capacity but
already holding 3 occupants. -/
def aptUnderOwnMax : Apartment :=
  { buildingName := "Main", unitNumber := "102", floor := 1, rooms := 4,
    status := "available", monthlyRent := 2000, amenities := [],
    maxOccupants := 5, currentOccupants := 3, createdAt := 0, updatedAt := 0 }

/-- An empty three-person apartment. -/
def aptEmpty : Apartment :=
  { buildingName := "Main", unitNumber := "103", floor := 1, rooms := 3,
    status := "available", monthlyRent := 1500, amenities := [],
    maxOccupants := 3, currentOccupants := 0, createdAt := 0, updatedAt := 0 }

/-- A user document with no apartment reference. -/
def someUser : UserDoc := { apartmentId := none, updatedAt := 0 }

/-- Store for the capacity claim: apartment `A` is at its own configured
capacity (2 of 2) while apartment `E` holds 3 of 5; users `u1`, `u2` exist
and no tenancies exist. -/
def storeCapacity : Store :=
  { apartments := [("A", aptAtOwnMax), ("E", aptUnderOwnMax)],
    tenantApartments := [],
    users := [("u1", someUser), ("u2", someUser)] }

/-- Store for the date-validation claim: empty apartment `B`, user `u2`, no
tenancies. -/
def storeDates : Store :=
  { apartments := [("B", aptEmpty)],
    tenantApartments := [],
    users := [("u2", someUser)] }

/-- An active tenancy linking user `u5` to apartment `A5`. -/
def tenancyU5 : TenantApartment :=
  { userId := "u5", apartmentId := "A5", status := "active", role := "primary",
    leaseStartDate := 0, leaseEndDate := 10, monthlyRent := 1500,
    createdAt := 0, updatedAt := 0 }

/-- Store with exactly one active tenancy (`u5` in `A5`), whose referenced
user exists. -/
def storeOneTenant : Store :=
  { apartments := [("A5", aptEmpty)],
    tenantApartments := [("t5", tenancyU5)],
    users := [("u5", someUser)] }

/-- An inactive tenancy linking user `u6` to apartment `A6`. -/
def tenancyU6Inactive : TenantApartment :=
  { userId := "u6", apartmentId := "A6", status := "inactive", role := "primary",
    leaseStartDate := 0, leaseEndDate := 10, monthlyRent := 1500,
    createdAt := 0, updatedAt := 0 }

/-- Store in which user `u6` has only an inactive tenancy with apartment
`A6`: no active record exists for the pair. -/
def storeNoActivePair : Store :=
  { apartments := [("A6", aptEmpty)],
    tenantApartments := [("t6", tenancyU6Inactive)],
    users := [("u6", someUser)] }

/-- The `where('userId'...), where('apartmentId'...), where('status','active')`
selection the spec's RemoveTenant contract is stated over: the active tenancy
records of a (user, apartment) pair. -/
def activeTenanciesOfPair (s : Store) (userId apartmentId : String) :
    List (String × TenantApartment) :=
  s.tenantApartments.filter fun p =>
    p.2.userId == userId && p.2.apartmentId == apartmentId && p.2.status == "active"

/-! ## Claim theorems -/

/-- C1 (code divergence): `assignTenant` compares `currentOccupants` against
the literal 3, not against the apartment's own `maxOccupants`.  At the
concrete store `storeCapacity`: apartment `A` has
`currentOccupants = maxOccupants = 2`, yet the assignment passes the capacity
check and succeeds; apartment `E` has `currentOccupants = 3 < 5 = maxOccupants`,
yet the assignment fails with the capacity error.  Both directions of the
claimed equivalence are violated. -/
theorem assignTenant_capacity_ignores_maxOccupants :
    (getDocById storeCapacity.apartments "A" = some aptAtOwnMax ∧
      aptAtOwnMax.currentOccupants = aptAtOwnMax.maxOccupants ∧
      (assignTenant storeCapacity "u1" "A" 20240101 20241231 100 "t1").result.isOk
        = true) ∧
    (getDocById storeCapacity.apartments "E" = some aptUnderOwnMax ∧
      aptUnderOwnMax.currentOccupants < aptUnderOwnMax.maxOccupants ∧
      (assignTenant storeCapacity "u2" "E" 20240101 20241231 100 "t2").result =
        Except.error "Apartment is at maximum capacity (3 occupants)") :=
  ⟨⟨rfl, rfl, rfl⟩, ⟨rfl, by decide, rfl⟩⟩

/-- C2 (code divergence): `assignTenant` performs no lease-date validation.
With the lease end 20240101 strictly before the lease start 20240601 the call
nevertheless succeeds and issues all three writes, instead of failing with
InvalidDateRange before any write. -/
theorem assignTenant_no_date_validation :
    (20240101 : Int) < 20240601 ∧
    (assignTenant storeDates "u2" "B" 20240601 20240101 100 "t2").result.isOk
      = true ∧
    (assignTenant storeDates "u2" "B" 20240601 20240101 100 "t2").writes =
      [WriteOp.create "tenantApartments" "t2",
       WriteOp.update "apartments" "B",
       WriteOp.update "users" "u2"] :=
  ⟨by decide, rfl, rfl⟩

/-- C5 (code divergence): in `getApartmentTenants` the `map` callback's
parameter is named `doc` and shadows the imported Firestore `doc` function,
so the per-record user lookup crashes.  At `storeOneTenant` — exactly one
active tenancy for apartment `A5`, whose user exists — the query throws the
TypeError instead of returning one enriched record; only an apartment with no
matching records avoids the crash. -/
theorem getApartmentTenants_shadowed_doc_crash :
    (activeTenanciesOfApartment storeOneTenant "A5").length = 1 ∧
    getDocById storeOneTenant.users "u5" = some someUser ∧
    getApartmentTenants storeOneTenant "A5" =
      Except.error "TypeError: doc is not a function" ∧
    getApartmentTenants storeOneTenant "ZZ" = Except.ok [] :=
  ⟨rfl, rfl, rfl, rfl⟩

/-- C6 (code divergence): `removeTenant` is an empty stub.  At
`storeNoActivePair` — no active tenancy for the pair (`u6`, `A6`) — the call
issues no writes (as the claim requires) but returns successfully instead of
failing with NotFound. -/
theorem removeTenant_stub_no_error_no_writes :
    activeTenanciesOfPair storeNoActivePair "u6" "A6" = [] ∧
    removeTenant storeNoActivePair "u6" "A6" =
      ⟨Except.ok (), storeNoActivePair, []⟩ :=
  ⟨rfl, rfl⟩

/-- Rewriting one apartment document's `maxOccupants` through `f`, keeping
every other field. -/
def setMaxOccupants (f : Int → Int) (p : String × Apartment) : String × Apartment :=
  (p.1, { p.2 with maxOccupants := f p.2.maxOccupants })

/-- A store with every apartment's `maxOccupants` rewritten through `f`. -/
def withMaxOccupants (f : Int → Int) (s : Store) : Store :=
  { s with apartments := s.apartments.map (setMaxOccupants f) }

/-- The availability filter commutes with rewriting `maxOccupants`, because it
only reads `currentOccupants`. -/
theorem filter_available_setMaxOccupants (f : Int → Int)
    (l : List (String × Apartment)) :
    ((l.map (setMaxOccupants f)).filter fun p => p.2.currentOccupants < 3) =
      ((l.filter fun p => p.2.currentOccupants < 3).map (setMaxOccupants f)) := by
  induction l with
  | nil => rfl
  | cons p rest ih =>
    by_cases h : p.2.currentOccupants < 3
    · simp [setMaxOccupants, List.filter_cons, h, ih]
    · simp [setMaxOccupants, List.filter_cons, h, ih]

/-- C7: `getAvailableApartments` returns exactly the apartments whose
`currentOccupants` is strictly below the literal 3, and the result is
independent of the apartments' own `maxOccupants` values: rewriting every
`maxOccupants` arbitrarily yields the image of the same selection. -/
theorem getAvailableApartments_threshold_three (s : Store) (id : String)
    (a : Apartment) (f : Int → Int) :
    ((id, a) ∈ getAvailableApartments s ↔
      (id, a) ∈ s.apartments ∧ a.currentOccupants < 3) ∧
    getAvailableApartments (withMaxOccupants f s) =
      (getAvailableApartments s).map (setMaxOccupants f) := by
  constructor
  · simp [getAvailableApartments, List.mem_filter]
  · simpa [getAvailableApartments, withMaxOccupants] using
      filter_available_setMaxOccupants f s.apartments

/-- C8: `deleteApartment` succeeds only when the apartment has no active
tenancy records; whenever at least one active tenancy references the
apartment, the operation fails, the store is unchanged (the apartment document
is not removed) and no write is issued. -/
theorem deleteApartment_requires_no_active_tenants (s : Store)
    (apartmentId : String) :
    (∀ r, (deleteApartment s apartmentId).result = Except.ok r →
      activeTenanciesOfApartment s apartmentId = []) ∧
    (activeTenanciesOfApartment s apartmentId ≠ [] →
      (deleteApartment s apartmentId).result.isOk = false ∧
      (deleteApartment s apartmentId).store = s ∧
      (deleteApartment s apartmentId).writes = []) := by
  constructor
  · intro r hr
    unfold deleteApartment at hr
    cases h : getDocById s.apartments apartmentId with
    | none => rw [h] at hr; simp at hr
    | some apt =>
      rw [h] at hr
      by_cases hl : (activeTenanciesOfApartment s apartmentId).length > 0
      · rw [if_pos hl] at hr
        simp at hr
      · exact List.length_eq_zero.mp (by omega)
  · intro hne
    have hlen : (activeTenanciesOfApartment s apartmentId).length > 0 :=
      List.length_pos.mpr hne
    unfold deleteApartment
    cases h : getDocById s.apartments apartmentId with
    | none => exact ⟨rfl, rfl, rfl⟩
    | some apt =>
      rw [if_pos hlen]
      exact ⟨rfl, rfl, rfl⟩

/-- Witness for C8 at the concrete store `storeOneTenant`: apartment `A5` has
one active tenancy, so its deletion fails without a write. -/
theorem deleteApartment_requires_no_active_tenants_witness :
    (deleteApartment storeOneTenant "A5").result.isOk = false ∧
    (deleteApartment storeOneTenant "A5").store = storeOneTenant ∧
    (deleteApartment storeOneTenant "A5").writes = [] :=
  (deleteApartment_requires_no_active_tenants storeOneTenant "A5").2 (by decide)

/-- A three-person apartment already holding 3 occupants (full for the code's
hardcoded check). -/
def aptThreeOcc : Apartment :=
  { buildingName := "Main", unitNumber := "104", floor := 1, rooms := 3,
    status := "occupied", monthlyRent := 1800, amenities := [],
    maxOccupants := 3, currentOccupants := 3, createdAt := 0, updatedAt := 0 }

/-- An active tenancy of user `u3` in apartment `C`. -/
def tenancyU3 : TenantApartment :=
  { userId := "u3", apartmentId := "C", status := "active", role := "primary",
    leaseStartDate := 0, leaseEndDate := 10, monthlyRent := 1800,
    createdAt := 0, updatedAt := 0 }

/-- Store in which user `u3` already has an active tenancy and apartment `C`
holds 3 occupants. -/
def storeDupFull : Store :=
  { apartments := [("C", aptThreeOcc)],
    tenantApartments := [("t3", tenancyU3)],
    users := [("u3", someUser)] }

/-- An apartment with one occupant (room left under the code's check). -/
def aptOneOcc : Apartment :=
  { buildingName := "Main", unitNumber := "105", floor := 2, rooms := 2,
    status := "occupied", monthlyRent := 1100, amenities := [],
    maxOccupants := 3, currentOccupants := 1, createdAt := 0, updatedAt := 0 }

/-- An active tenancy of user `u4` in apartment `D`. -/
def tenancyU4 : TenantApartment :=
  { userId := "u4", apartmentId := "D", status := "active", role := "primary",
    leaseStartDate := 0, leaseEndDate := 10, monthlyRent := 1100,
    createdAt := 0, updatedAt := 0 }

/-- Store in which user `u4` already has an active tenancy while apartment
`D` still has room under the code's check. -/
def storeDupRoom : Store :=
  { apartments := [("D", aptOneOcc)],
    tenantApartments := [("t4", tenancyU4)],
    users := [("u4", someUser)] }

/-- Counterexample to C3 as stated: user `u3` already has an active tenancy,
yet the subsequent `assignTenant` call fails with the capacity error — not
with DuplicateActiveTenancy — because the capacity check runs first and
apartment `C` holds 3 occupants. -/
theorem assignTenant_duplicate_counterexample :
    activeTenanciesOfUser storeDupFull "u3" ≠ [] ∧
    (assignTenant storeDupFull "u3" "C" 0 10 100 "t9").result =
      Except.error "Apartment is at maximum capacity (3 occupants)" ∧
    ("Apartment is at maximum capacity (3 occupants)" : String) ≠
      "User already has an active apartment" :=
  ⟨by decide, rfl, by decide⟩

/-- C3 (amended): a user who already has an active tenancy is always rejected
by `assignTenant` — the call never succeeds, leaves the store unchanged and
issues no write, so the single-active-tenancy invariant is preserved; the
error is DuplicateActiveTenancy whenever the preceding checks pass (the
apartment exists with fewer than 3 occupants and the user exists), and an
earlier precondition's error otherwise. -/
theorem assignTenant_rejects_active_user (s : Store) (userId apartmentId : String)
    (ls le now : Int) (freshId : String)
    (hdup : activeTenanciesOfUser s userId ≠ []) :
    ((assignTenant s userId apartmentId ls le now freshId).result.isOk = false ∧
      (assignTenant s userId apartmentId ls le now freshId).store = s ∧
      (assignTenant s userId apartmentId ls le now freshId).writes = []) ∧
    (∀ apt, getDocById s.apartments apartmentId = some apt →
      apt.currentOccupants < 3 →
      (getDocById s.users userId).isSome = true →
      (assignTenant s userId apartmentId ls le now freshId).result =
        Except.error "User already has an active apartment") := by
  have hemp : (activeTenanciesOfUser s userId).isEmpty = false := by
    cases hx : activeTenanciesOfUser s userId with
    | nil => exact absurd hx hdup
    | cons a t => rfl
  constructor
  · unfold assignTenant
    cases h : getDocById s.apartments apartmentId with
    | none => exact ⟨rfl, rfl, rfl⟩
    | some apt =>
      dsimp only
      by_cases hc : apt.currentOccupants ≥ 3
      · rw [if_pos hc]
        exact ⟨rfl, rfl, rfl⟩
      · rw [if_neg hc]
        cases hu : getDocById s.users userId with
        | none => exact ⟨rfl, rfl, rfl⟩
        | some u =>
          dsimp only
          simp only [hemp, Bool.not_false]
          rw [if_pos trivial]
          exact ⟨rfl, rfl, rfl⟩
  · intro apt hapt hlt hu
    unfold assignTenant
    rw [hapt]
    dsimp only
    rw [if_neg (not_le.mpr hlt)]
    cases hu2 : getDocById s.users userId with
    | none => rw [hu2] at hu; simp at hu
    | some u =>
      dsimp only
      simp only [hemp, Bool.not_false, if_true]

/-- Witness for C3 (amended) at `storeDupRoom`: user `u4` has an active
tenancy, apartment `D` exists with room to spare and the user exists, so the
second call fails precisely with DuplicateActiveTenancy. -/
theorem assignTenant_rejects_active_user_witness :
    (assignTenant storeDupRoom "u4" "D" 0 10 100 "t10").result =
      Except.error "User already has an active apartment" :=
  (assignTenant_rejects_active_user storeDupRoom "u4" "D" 0 10 100 "t10"
    (by decide)).2 aptOneOcc rfl (by decide) rfl

/-- C4: when every precondition holds — the apartment exists, its occupancy is
below the code's capacity check and below its own `maxOccupants`, the user
exists, the user has no active tenancy, and the lease range is sane —
`assignTenant` issues exactly the three writes in order (create the tenancy,
update the apartment, update the user), the created tenancy has
`status = active`, `role = primary` and the apartment's `monthlyRent` at
assignment time, the store reflects the occupant increment and the user's new
apartment reference with updated timestamps, and the call returns the created
record with its id. -/
theorem assignTenant_success_writes (s : Store) (userId apartmentId : String)
    (ls le now : Int) (freshId : String) (apt : Apartment) (u : UserDoc)
    (h1 : getDocById s.apartments apartmentId = some apt)
    (h2 : apt.currentOccupants < 3)
    (h2m : apt.currentOccupants < apt.maxOccupants)
    (h3 : getDocById s.users userId = some u)
    (h4 : activeTenanciesOfUser s userId = [])
    (h5 : ls ≤ le) :
    (assignTenant s userId apartmentId ls le now freshId).result =
      Except.ok (freshId,
        { userId := userId, apartmentId := apartmentId, status := "active",
          role := "primary", leaseStartDate := ls, leaseEndDate := le,
          monthlyRent := apt.monthlyRent, createdAt := now, updatedAt := now }) ∧
    (assignTenant s userId apartmentId ls le now freshId).writes =
      [WriteOp.create "tenantApartments" freshId,
       WriteOp.update "apartments" apartmentId,
       WriteOp.update "users" userId] ∧
    (assignTenant s userId apartmentId ls le now freshId).store.tenantApartments =
      s.tenantApartments ++ [(freshId,
        { userId := userId, apartmentId := apartmentId, status := "active",
          role := "primary", leaseStartDate := ls, leaseEndDate := le,
          monthlyRent := apt.monthlyRent, createdAt := now, updatedAt := now })] ∧
    getDocById (assignTenant s userId apartmentId ls le now freshId).store.apartments
        apartmentId =
      some { apt with currentOccupants := apt.currentOccupants + 1, updatedAt := now } ∧
    getDocById (assignTenant s userId apartmentId ls le now freshId).store.users
        userId =
      some { u with apartmentId := some apartmentId, updatedAt := now } := by
  unfold assignTenant
  rw [h1]
  dsimp only
  rw [if_neg (not_le.mpr h2), h3]
  rw [h4]
  simp only [List.isEmpty_nil, Bool.not_true, Bool.false_eq_true, if_false]
  refine ⟨?_, ?_, ?_, ?_, ?_⟩
  · trivial
  · trivial
  · trivial
  · rw [getDocById_updateDocById, h1]
    rfl
  · rw [getDocById_updateDocById, h3]
    rfl

/-- Witness for C4 at `storeDates`: assigning user `u2` to the empty
apartment `B` returns the created active primary tenancy carrying the
apartment's rent. -/
theorem assignTenant_success_writes_witness :
    (assignTenant storeDates "u2" "B" 0 10 100 "t7").result =
      Except.ok ("t7",
        { userId := "u2", apartmentId := "B", status := "active",
          role := "primary", leaseStartDate := 0, leaseEndDate := 10,
          monthlyRent := aptEmpty.monthlyRent, createdAt := 100,
          updatedAt := 100 }) :=
  (assignTenant_success_writes storeDates "u2" "B" 0 10 100 "t7" aptEmpty someUser
    rfl (by decide) (by decide) rfl rfl (by decide)).1

/-- C9: every apartment document stored by `createApartment` starts with
`currentOccupants = 0` and `status = "available"`, whatever values the caller
supplied for those fields in the input: the function overwrites both after
spreading the input, and the stored document is exactly the returned one. -/
theorem createApartment_initial_state (s : Store) (input : ApartmentInput)
    (now : Int) (freshId : String) (id : String) (apt : Apartment)
    (h : (createApartment s input now freshId).result = Except.ok (id, apt)) :
    apt.currentOccupants = 0 ∧ apt.status = "available" ∧
    (createApartment s input now freshId).store.apartments =
      s.apartments ++ [(freshId, apt)] := by
  unfold createApartment at h ⊢
  split at h
  next hc1 => simp at h
  next hc1 =>
    split at h
    next hc2 => simp at h
    next hc2 =>
      split at h
      next hc3 => simp at h
      next hc3 =>
        rw [if_neg hc1, if_neg hc2, if_neg hc3]
        simp only [Except.ok.injEq, Prod.mk.injEq] at h
        obtain ⟨hid, hapt⟩ := h
        subst hapt
        exact ⟨rfl, rfl, rfl⟩

/-- Caller input for C9's witness, carrying bogus caller-supplied
`status = "occupied"` and `currentOccupants = 7`. -/
def inputOverride : ApartmentInput :=
  { buildingName := "Main", unitNumber := "901", floor := 2, rooms := 3,
    status := "occupied", monthlyRent := 1000, amenities := [],
    maxOccupants := 4, currentOccupants := 7 }

/-- An empty store. -/
def storeEmpty : Store :=
  { apartments := [], tenantApartments := [], users := [] }

/-- The document `createApartment` actually stores for `inputOverride`:
the caller's status and occupancy are replaced. -/
def createdFromOverride : Apartment :=
  { buildingName := "Main", unitNumber := "901", floor := 2, rooms := 3,
    status := "available", monthlyRent := 1000, amenities := [],
    maxOccupants := 4, currentOccupants := 0, createdAt := 100, updatedAt := 100 }

/-- Witness for C9: despite `inputOverride` supplying `status = "occupied"`
and `currentOccupants = 7`, the stored document has `currentOccupants = 0`
and `status = "available"`. -/
theorem createApartment_initial_state_witness :
    createdFromOverride.currentOccupants = 0 ∧
    createdFromOverride.status = "available" ∧
    (createApartment storeEmpty inputOverride 100 "n1").store.apartments =
      storeEmpty.apartments ++ [("n1", createdFromOverride)] :=
  createApartment_initial_state storeEmpty inputOverride 100 "n1" "n1"
    createdFromOverride rfl

/-- C10: a zero supplied for a validated numeric field of `updateApartment`
is falsy, so its validation branch is skipped; provided the apartment exists,
the other numeric fields are absent or nonnegative, and no unit-number change
is requested, the update succeeds, issues its write, and every supplied value
— the zero included — reaches the stored document. -/
theorem updateApartment_zero_skips_validation (s : Store) (apartmentId : String)
    (u : ApartmentUpdate) (now : Int) (apt : Apartment)
    (h1 : getDocById s.apartments apartmentId = some apt)
    (hf : u.floor = some 0)
    (hr : passesNumValidation u.rooms = true)
    (hm : passesNumValidation u.monthlyRent = true)
    (hx : passesNumValidation u.maxOccupants = true)
    (hu : u.unitNumber = none) :
    (updateApartment s apartmentId u now).result =
      Except.ok (apartmentId, u, now) ∧
    (updateApartment s apartmentId u now).writes =
      [WriteOp.update "apartments" apartmentId] ∧
    getDocById (updateApartment s apartmentId u now).store.apartments apartmentId =
      some (applyApartmentUpdate apt u now) ∧
    (applyApartmentUpdate apt u now).floor = 0 ∧
    (∀ v, u.rooms = some v → (applyApartmentUpdate apt u now).rooms = v) ∧
    (∀ v, u.monthlyRent = some v →
      (applyApartmentUpdate apt u now).monthlyRent = v) ∧
    (∀ v, u.maxOccupants = some v →
      (applyApartmentUpdate apt u now).maxOccupants = v) := by
  have hfl : ¬(truthyNum u.floor = true ∧ u.floor.getD 0 ≤ 0) := by
    rintro ⟨ht, _⟩
    rw [hf] at ht
    exact absurd ht (by decide)
  have hun : ¬(truthyStr u.unitNumber = true ∧
      ((s.apartments.find? fun p =>
        !(p.1 == apartmentId) && p.2.unitNumber == u.unitNumber.getD "").isSome
          = true)) := by
    rintro ⟨ht, _⟩
    rw [hu] at ht
    exact absurd ht (by decide)
  unfold updateApartment
  rw [h1]
  dsimp only
  rw [if_neg hfl, if_neg (passesNumValidation_not_invalid u.rooms hr),
    if_neg (passesNumValidation_not_invalid u.monthlyRent hm),
    if_neg (passesNumValidation_not_invalid u.maxOccupants hx), if_neg hun]
  refine ⟨rfl, rfl, ?_, ?_, ?_, ?_, ?_⟩
  · rw [getDocById_updateDocById, h1]
    rfl
  · simp [applyApartmentUpdate, hf]
  · intro v hv
    simp [applyApartmentUpdate, hv]
  · intro v hv
    simp [applyApartmentUpdate, hv]
  · intro v hv
    simp [applyApartmentUpdate, hv]

/-- An update supplying 0 for all four validated numeric fields. -/
def zeroUpdate : ApartmentUpdate :=
  { floor := some 0, rooms := some 0, monthlyRent := some 0,
    maxOccupants := some 0 }

/-- Witness for C10: updating apartment `B` with zeros for all four numeric
fields succeeds — no validation error is raised. -/
theorem updateApartment_zero_skips_validation_witness :
    (updateApartment storeDates "B" zeroUpdate 200).result =
      Except.ok ("B", zeroUpdate, 200) :=
  (updateApartment_zero_skips_validation storeDates "B" zeroUpdate 200 aptEmpty
    rfl rfl (by decide) (by decide) (by decide) rfl).1

end LandlordLink
